import Mathlib

/-!
# Verification of the rubric-driven grading engine and composite reward signal

Shallow embedding of `tools/grading_engine.py`, the overall-score branch of
`tools/eval_runner.py`, and `studio/rewards.py`.

Conventions:
* Python `str` values that are *processed* character by character are modelled
  as `List Char`; Python float arithmetic on scores is modelled as exact `ℚ`
  arithmetic (the grading engine only adds, multiplies and divides small
  decimal constants), and as exact `ℝ` arithmetic in the reward module (whose
  `compute_format` takes a square root).
* Python `re` searches are modelled by a small matcher (`mrun`, `searchEnd`,
  `findAll`) for the fragment of regular expressions the source actually
  uses (literals, character classes, `?`, `*`, `+`, `.{0,n}`, `{n}`,
  top-level alternation).  The matcher follows Python's semantics: leftmost
  match, alternatives tried left to right, greedy quantifiers with
  backtracking.  Case-insensitive (`(?i)`) searches are modelled by
  lowercasing the subject and writing the pattern in lowercase (all subject
  texts of interest are ASCII).
-/

/-- ASCII lowercasing of one character, modelling `str.lower` on ASCII text. -/
def lowerChar (c : Char) : Char :=
  if 'A' ≤ c ∧ c ≤ 'Z' then Char.ofNat (c.toNat + 32) else c

/-- `str.lower` on a character list. -/
def lowerL (s : List Char) : List Char := s.map lowerChar

/-- Python whitespace (`str.strip` / `str.split` / regex `\s`, ASCII range). -/
def isPySpace (c : Char) : Bool :=
  c = ' ' ∨ c = '\t' ∨ c = '\n' ∨ c = '\r' ∨ c = '\x0b' ∨ c = '\x0c'

/-- Python `str.strip()`: drop whitespace from both ends. -/
def pyStrip (s : List Char) : List Char :=
  ((s.dropWhile isPySpace).reverse.dropWhile isPySpace).reverse

/-- Python `needle in haystack` substring test. -/
def containsSub (needle haystack : List Char) : Bool :=
  match haystack with
  | [] => needle.isEmpty
  | _ :: rest => needle.isPrefixOf haystack || containsSub needle rest

/-- Python `str.split()` (split on whitespace runs, dropping empty fields). -/
def splitWsAux : List Char → List Char → List (List Char)
  | [], acc => if acc.isEmpty then [] else [acc.reverse]
  | c :: rest, acc =>
    if isPySpace c then
      if acc.isEmpty then splitWsAux rest [] else acc.reverse :: splitWsAux rest []
    else splitWsAux rest (c :: acc)

/-- Python `str.split()` with no separator argument. -/
def splitWs (s : List Char) : List (List Char) := splitWsAux s []

/-- Python `str.split(sep)` for a non-empty separator (leftmost,
non-overlapping).  `fuel` bounds the scan; `s.length + 1` always suffices. -/
def splitOnLAux (sep : List Char) : Nat → List Char → List Char → List (List Char)
  | 0, _, acc => [acc.reverse]
  | _ + 1, [], acc => [acc.reverse]
  | fuel + 1, s@(c :: rest), acc =>
    if sep.isPrefixOf s then acc.reverse :: splitOnLAux sep fuel (s.drop sep.length) []
    else splitOnLAux sep fuel rest (c :: acc)

/-- Python `str.split(sep)`. -/
def splitOnL (sep s : List Char) : List (List Char) :=
  splitOnLAux sep (s.length + 1) s []

/-! ## A matcher for the regex fragment used by the source

A pattern is a top-level alternation (`List` of branches); each branch is a
sequence of tokens.  This covers every regex appearing in
`grading_engine.py` and `rewards.py` that the claims depend on. -/

/-- Regex tokens: literal, optional class (`x?`), any non-newline (`.`),
bounded any-gap (`.{0,n}` and `x{0,n}`), class (`[..]`, `\d`, `\s`),
greedy star/plus over a class, and exact repetition (`\d{4}`). -/
inductive RTok where
  | lit : List Char → RTok
  | optC : (Char → Bool) → RTok
  | dotC : RTok
  | gapC : Nat → (Char → Bool) → RTok
  | cls : (Char → Bool) → RTok
  | star : (Char → Bool) → RTok
  | plus : (Char → Bool) → RTok
  | rep : Nat → (Char → Bool) → RTok

/-- `.` in Python (no DOTALL): any character except a newline. -/
def nonNl (c : Char) : Bool := c ≠ '\n'

/-- `.{0,n}`: up to `n` arbitrary non-newline characters. -/
def RTok.gap (n : Nat) : RTok := RTok.gapC n nonNl

/-- One backtracking step of the matcher.  Given a token sequence and a
subject suffix, returns the remaining suffix after the first (greedy,
Python-order) way to match, if any.  Along every path each call either
consumes a subject character or shortens the token list, so
`s.length + ts.length + 2` fuel always suffices. -/
def mrun : Nat → List RTok → List Char → Option (List Char)
  | 0, _, _ => none
  | _ + 1, [], s => some s
  | fuel + 1, .lit l :: ts, s =>
    if l.isPrefixOf s then mrun fuel ts (s.drop l.length) else none
  | fuel + 1, .optC p :: ts, s =>
    match s with
    | c :: rest =>
      if p c then (mrun fuel ts rest).orElse (fun _ => mrun fuel ts (c :: rest))
      else mrun fuel ts (c :: rest)
    | [] => mrun fuel ts []
  | fuel + 1, .dotC :: ts, s =>
    match s with
    | c :: rest => if nonNl c then mrun fuel ts rest else none
    | [] => none
  | fuel + 1, .gapC n p :: ts, s =>
    match n, s with
    | n' + 1, c :: rest =>
      if p c then (mrun fuel (.gapC n' p :: ts) rest).orElse (fun _ => mrun fuel ts (c :: rest))
      else mrun fuel ts (c :: rest)
    | 0, _ => mrun fuel ts s
    | _, [] => mrun fuel ts []
  | fuel + 1, .cls p :: ts, s =>
    match s with
    | c :: rest => if p c then mrun fuel ts rest else none
    | [] => none
  | fuel + 1, .star p :: ts, s =>
    match s with
    | c :: rest =>
      if p c then (mrun fuel (.star p :: ts) rest).orElse (fun _ => mrun fuel ts (c :: rest))
      else mrun fuel ts (c :: rest)
    | [] => mrun fuel ts []
  | fuel + 1, .plus p :: ts, s =>
    match s with
    | c :: rest => if p c then mrun fuel (.star p :: ts) rest else none
    | [] => none
  | fuel + 1, .rep n p :: ts, s =>
    match n, s with
    | 0, _ => mrun fuel ts s
    | n' + 1, c :: rest => if p c then mrun fuel (.rep n' p :: ts) rest else none
    | _ + 1, [] => none

/-- Fuel that always suffices for `mrun` (see the comment there). -/
def mfuel (ts : List RTok) (s : List Char) : Nat := s.length + ts.length + 2

/-- Try the branches of an alternation, in order, at the current position;
returns the number of characters consumed by the first branch that matches. -/
def tryHere (bs : List (List RTok)) (s : List Char) : Option Nat :=
  match bs with
  | [] => none
  | b :: rest =>
    match mrun (mfuel b s) b s with
    | some r => some (s.length - r.length)
    | none => tryHere rest s

/-- `re.search`: end position of the leftmost match of an alternation. -/
def searchEndAux (bs : List (List RTok)) : List Char → Nat → Option Nat
  | [], pos =>
    match tryHere bs [] with
    | some k => some (pos + k)
    | none => none
  | c :: rest, pos =>
    match tryHere bs (c :: rest) with
    | some k => some (pos + k)
    | none => searchEndAux bs rest (pos + 1)

/-- End position (`match.end()`) of the leftmost match, if any. -/
def searchEnd (bs : List (List RTok)) (s : List Char) : Option Nat :=
  searchEndAux bs s 0

/-- Truthiness of `re.search`. -/
def searchB (bs : List (List RTok)) (s : List Char) : Bool :=
  (searchEnd bs s).isSome

/-- `re.findall`: leftmost non-overlapping matches, scanning left to right.
`fuel` bounds the scan; `s.length` suffices since every step consumes at
least one character (no pattern of the source matches the empty string). -/
def findAllAux (bs : List (List RTok)) : Nat → List Char → List (List Char)
  | 0, _ => []
  | _ + 1, [] => []
  | fuel + 1, s@(_ :: rest) =>
    match tryHere bs s with
    | some (k + 1) => s.take (k + 1) :: findAllAux bs fuel (s.drop (k + 1))
    | some 0 => findAllAux bs fuel rest
    | none => findAllAux bs fuel rest

/-- `re.findall` for the patterns of the source. -/
def findAll (bs : List (List RTok)) (s : List Char) : List (List Char) :=
  findAllAux bs s.length s

/-- Shorthand for a literal token built from a string. -/
def litS (s : String) : RTok := RTok.lit s.toList

/-! ## Data model of `GradingEngine` (tools/grading_engine.py)

A rubric is a nested mapping; optional fields are `Option`s and the
`dict.get(key, default)` accesses of `GradingEngine.__init__` are the
`getD` projections below.  A scenario supplies `key_facts` and
`evaluation_criteria.critical_failures`. -/

/-- One entry of a rubric's `dimensions` list (only the fields the code
reads: `dimension["id"]` and `dimension.get("weight", 1.0)`). -/
structure Dim where
  id : String
  weight : Option ℚ := none

/-- A rubric specification as passed to `GradingEngine.__init__`. -/
structure Rubric where
  dimensions : Option (List Dim) := none
  critical_failures : Option (List (List Char)) := none
  pass_threshold : Option ℚ := none

/-- `self.dimensions = rubric.get("dimensions", [])`. -/
def Rubric.dims (r : Rubric) : List Dim := r.dimensions.getD []

/-- `self.pass_threshold = rubric.get("pass_threshold", 70)`. -/
def Rubric.passThreshold (r : Rubric) : ℚ := r.pass_threshold.getD 70

/-- One entry of a scenario's `key_facts` list. -/
structure FactEntry where
  fact : Option (List Char) := none
  importance : Option (List Char) := none

/-- The `evaluation_criteria` sub-mapping of a scenario. -/
structure EvalCriteria where
  critical_failures : Option (List (List Char)) := none

/-- A scenario context (only the fields the grading engine reads). -/
structure Scenario where
  key_facts : Option (List FactEntry) := none
  evaluation_criteria : Option EvalCriteria := none

/-! ## Critical-failure detectors -/

/-- The first header pattern of `_has_risk_section`: `## ?risks?`. -/
def riskHeaderPat : List RTok :=
  [litS "##", .optC (· = ' '), litS "risk", .optC (· = 's')]

/-- The fixed header patterns of `_has_risk_section` (all `(?i)`; written
lowercase, subjects are lowercased). -/
def riskPatterns : List (List RTok) :=
  [ riskHeaderPat,
    [litS "###", .optC (· = ' '), litS "key risk", .optC (· = 's')],
    [litS "risk assessment"],
    [litS "what could go wrong"],
    [litS "downside"],
    [litS "what", .gap 20, litS "wrong"],
    [litS "residual", .gap 20, litS "exposure"],
    [litS "unhedged"],
    [litS "factor", .gap 20, litS "drag"],
    [litS "critical", .gap 20, litS "failure"],
    [litS "common", .gap 20, litS "errors"] ]

/-- `GradingEngine._has_risk_section`: some header pattern matches and the
200-character window after the match strips to more than 50 characters. -/
def has_risk_section (ai_output : List Char) : Bool :=
  riskPatterns.any (fun p =>
    match searchEnd [p] (lowerL ai_output) with
    | some e => decide ((pyStrip ((ai_output.drop e).take 200)).length > 50)
    | none => false)

/-- The fixed patterns of `_has_guarantee_language` (all `(?i)`). -/
def guaranteePatterns : List (List RTok) :=
  [ [litS "guaranteed"],
    [litS "will definitely"],
    [litS "certain to"],
    [litS "cannot fail"],
    [litS "100% chance"],
    [litS "risk", .dotC, litS "free"] ]

/-- `GradingEngine._has_guarantee_language`. -/
def has_guarantee_language (ai_output : List Char) : Bool :=
  guaranteePatterns.any (fun p => searchB [p] (lowerL ai_output))

/-- Character class `[\d,.]` of the dollar-figure regex. -/
def figChar (c : Char) : Bool := c.isDigit || c = ',' || c = '.'

/-- Character class `[BMK]` (case-sensitive in the source). -/
def bmkChar (c : Char) : Bool := c = 'B' || c = 'M' || c = 'K'

/-- The dollar-figure branch `\$[\d,.]+[BMK]?`. -/
def figBranch : List RTok := [litS "$", .plus figChar, .optC bmkChar]

/-- `re.findall(r'\$[\d,.]+[BMK]?', ...)` (case-sensitive). -/
def figRegex : List (List RTok) := [figBranch]

/-- `re.findall(r'\$[\d,.]+[BMK]?|\d+\.?\d*%|\d{4}', ...)` over a fact. -/
def factRegex : List (List RTok) :=
  [ figBranch,
    [.plus Char.isDigit, .optC (· = '.'), .star Char.isDigit, litS "%"],
    [.rep 4 Char.isDigit] ]

/-- The numbers extracted from the scenario's `key_facts` (the
`fact_values` list of `_detect_hallucination`). -/
def scenarioFactValues (scenario : Scenario) : List (List Char) :=
  ((scenario.key_facts.getD []).map (fun f => findAll factRegex (f.fact.getD []))).flatten

/-- The four `calculation_context_patterns` of `_detect_hallucination`
(all `(?i)`; alternation groups are flattened into top-level branches,
which preserves `re.search` truthiness). -/
def calculationContextPatterns : List (List (List RTok)) :=
  [ [ [litS "position"], [litS "sizing"], [litS "notional"],
      [litS "volatility", .dotC, litS "adjusted"],
      [litS "risk", .dotC, litS "contribution"] ],
    [ [litS "factor", .gap 20, litS "decomposition"], [litS "attribution"] ],
    [ [litS "hedge", .gap 20, litS "instrument"],
      [litS "hedge", .gap 20, litS "framework"],
      [litS "hedging", .gap 20, litS "instrument"],
      [litS "hedging", .gap 20, litS "framework"] ],
    [ [litS "terminal", .gap 20, litS "value"],
      [litS "terminal", .gap 20, litS "framework"],
      [litS "dcf", .gap 20, litS "value"],
      [litS "dcf", .gap 20, litS "framework"],
      [litS "valuation", .gap 20, litS "value"],
      [litS "valuation", .gap 20, litS "framework"] ] ]

/-- `has_calculation_context` of `_detect_hallucination`. -/
def has_calculation_context (ai_output : List Char) : Bool :=
  calculationContextPatterns.any (fun bs => searchB bs (lowerL ai_output))

/-- `GradingEngine._detect_hallucination`, translated line by line. -/
def detect_hallucination (ai_output : List Char) (scenario : Scenario) : Bool :=
  let key_facts := scenario.key_facts.getD []
  let fact_values := (key_facts.map (fun f => findAll factRegex (f.fact.getD []))).flatten
  let output_figures := findAll figRegex ai_output
  let hasCalc := calculationContextPatterns.any (fun bs => searchB bs (lowerL ai_output))
  if hasCalc then false
  else
    let unmatched_count :=
      (output_figures.take 10).countP (fun fig => !(fact_values.any (fun fv => containsSub fig fv)))
    decide (unmatched_count > 5)

/-- `prob_patterns` of `_check_scenario_critical_failure` (searched with
`re.I`). -/
def probPatterns : List (List RTok) :=
  [ [.plus Char.isDigit, litS "%"], [litS "probability"], [litS "likelihood"], [litS "chance"] ]

/-- `scenario_patterns` of `_check_scenario_critical_failure` (binary-outcome
awareness; searched with `re.I`; `.*` is any run of non-newline characters). -/
def binaryScenarioPatterns : List (List RTok) :=
  [ [litS "if", .star nonNl, litS "succeed"],
    [litS "if", .star nonNl, litS "fail"],
    [litS "success", .star nonNl, litS "scenario"],
    [litS "failure", .star nonNl, litS "scenario"],
    [litS "bull", .star nonNl, litS "case"],
    [litS "bear", .star nonNl, litS "case"],
    [litS "base", .star nonNl, litS "case"],
    [litS "upside", .star nonNl, litS "downside"],
    [litS "asymmetric"],
    [litS "binary"],
    [litS "catalyst"],
    [litS "probability", .star nonNl, litS "success"],
    [litS "probability", .star nonNl, litS "fail"],
    [.plus Char.isDigit, litS "%", .star nonNl, litS "probability"],
    [.plus Char.isDigit, litS "%", .star nonNl, litS "chance"] ]

/-- `GradingEngine._check_scenario_critical_failure`. -/
def check_scenario_critical_failure (ai_output : List Char) (critical_failure : List Char) : Bool :=
  let lower_failure := lowerL critical_failure
  if containsSub "no probability estimate".toList lower_failure then
    !(probPatterns.any (fun p => searchB [p] (lowerL ai_output)))
  else if containsSub "ignores binary".toList lower_failure
      || containsSub "binary nature".toList lower_failure then
    !(binaryScenarioPatterns.any (fun p => searchB [p] (lowerL ai_output)))
  else false

/-- `GradingEngine._check_critical_failures`: the four checks, appended in
source order. -/
def check_critical_failures (ai_output : List Char) (scenario : Scenario) : List (List Char) :=
  (if detect_hallucination ai_output scenario
    then ["Potential hallucinated data detected".toList] else []) ++
  (if !(has_risk_section ai_output)
    then ["Missing or inadequate risk assessment section".toList] else []) ++
  (if has_guarantee_language ai_output
    then ["Contains forward-looking guarantees".toList] else []) ++
  (((scenario.evaluation_criteria.getD {}).critical_failures.getD []).filter
      (fun critical => check_scenario_critical_failure ai_output critical)).map
    (fun critical => "Scenario critical failure: ".toList ++ critical)

/-! ## Aggregator (`calculate_overall_score`, `determine_pass_fail`) and the
weight-convention branch of `EvalRunner.run_evaluation` -/

/-- `GradingEngine.calculate_overall_score`: weighted sum over the rubric's
dimensions that are present in the scores map, divided by the total weight
(0.0 when the total weight is 0).  The scores map is modelled as a partial
function `String → Option ℚ` (`dim_id in dimension_scores` is `isSome`). -/
def calculate_overall_score (r : Rubric) (dimension_scores : String → Option ℚ) : ℚ :=
  let acc := r.dims.foldl (fun (acc : ℚ × ℚ) dimension =>
      let weight := dimension.weight.getD 1
      match dimension_scores dimension.id with
      | some s => (acc.1 + s * weight, acc.2 + weight)
      | none => acc) (0, 0)
  if acc.2 = 0 then 0 else acc.1 / acc.2

/-- `GradingEngine.determine_pass_fail`. -/
def determine_pass_fail (r : Rubric) (overall_score : ℚ)
    (critical_failures : List (List Char)) : Bool :=
  if critical_failures.isEmpty then decide (overall_score ≥ r.passThreshold) else false

/-- The caller-side overall-score computation of `EvalRunner.run_evaluation`
(tools/eval_runner.py): if the weights sum to more than 10 they are taken as
percentages and the weighted sum is divided by 100, otherwise the raw
weighted sum is used; dimensions absent from the scores map count as 0. -/
def eval_runner_overall_score (r : Rubric) (scores : String → Option ℚ) : ℚ :=
  let dims := r.dimensions.getD []
  let total_weight := (dims.map (fun d => d.weight.getD 1)).sum
  if total_weight > 10 then
    (dims.map (fun d => (scores d.id).getD 0 * d.weight.getD 1 / 100)).sum
  else
    (dims.map (fun d => (scores d.id).getD 0 * d.weight.getD 1)).sum

/-! ## Dimension scorers (`_score_dimension` and the 17 heuristics)

Each heuristic scans the submission with regex/keyword groups and then runs
a fixed additive-bounded-clamp computation on the match counts.  The
scanning layer is abstracted here as the tuple of match-derived quantities
(one field per local variable of the source, named after it); the arithmetic
on those quantities, the feedback strings and the final clamp are translated
exactly.  Quantifying over all feature values subsumes quantifying over all
`(submission, scenario)` pairs. -/

/-- The match-derived local variables of the 17 heuristic scorers. -/
structure ScorerInputs where
  fa_citation_count : Nat := 0
  fa_facts_found : Nat := 0
  ar_scenario_count : Nat := 0
  ar_assumption_count : Nat := 0
  ar_structure_count : Nat := 0
  ra_risk_section_found : Bool := false
  ra_risk_items : Nat := 0
  ra_has_assessment : Bool := false
  ra_has_mitigation : Bool := false
  eq_source_count : Nat := 0
  eq_has_calculations : Bool := false
  co_thesis : Bool := false
  co_valuation : Bool := false
  co_risks : Bool := false
  co_catalyst : Bool := false
  co_position : Bool := false
  co_has_bull : Bool := false
  co_has_bear : Bool := false
  ae_separation_count : Nat := 0
  ae_has_quantification : Bool := false
  ae_has_extrapolation_awareness : Bool := false
  rt_scenario_count : Nat := 0
  rt_uncertainty_count : Nat := 0
  rt_has_probability : Bool := false
  tv_has_terminal : Bool := false
  tv_has_gdp_anchor : Bool := false
  tv_has_consistency : Bool := false
  cy_cyclical_count : Nat := 0
  cy_has_normalized : Bool := false
  rc_env_idio_count : Nat := 0
  rc_risk_type_count : Nat := 0
  hl_hedge_logic_count : Nat := 0
  hl_has_instruments : Bool := false
  hl_has_residual : Bool := false
  sm_risk_sizing_count : Nat := 0
  sm_has_vol_calc : Bool := false
  sm_has_binary : Bool := false
  rp_exposure_count : Nat := 0
  rp_has_risk_budget : Bool := false
  uj_uncertainty_count : Nat := 0
  uj_has_what_if : Bool := false
  ad_factor_count : Nat := 0
  ad_has_residual : Bool := false
  ad_has_calc_methodology : Bool := false
  ht_hypothesis_count : Nat := 0
  ht_has_skepticism : Bool := false
  ht_has_evidence : Bool := false
  ce_conditional_count : Nat := 0
  ce_has_intentionality : Bool := false
  ce_has_neutral_skepticism : Bool := false

/-- `"; ".join(feedback_parts) if feedback_parts else default`. -/
def joinSemi (parts : List String) (dflt : String) : String :=
  if parts.isEmpty then dflt else String.intercalate "; " parts

/-- `GradingEngine._score_factual_accuracy` (arithmetic/feedback layer). -/
def score_factual_accuracy (i : ScorerInputs) : ℚ × String :=
  let score : ℚ := 70
  let score := if i.fa_citation_count ≥ 5 then score + 10
    else if i.fa_citation_count ≥ 2 then score + 5 else score - 10
  let fb : List String := if i.fa_citation_count ≥ 5 then ["Good citation density"]
    else if i.fa_citation_count ≥ 2 then ["Adequate citations present"]
    else ["Insufficient citations"]
  let score := if i.fa_facts_found ≥ 3 then score + 10
    else if i.fa_facts_found ≥ 1 then score + 5 else score
  let fb := fb ++ (if i.fa_facts_found ≥ 3 then ["Key facts addressed"]
    else if i.fa_facts_found ≥ 1 then ["Some key facts addressed"] else [])
  let score := min 100 (max 0 score)
  (score, joinSemi fb "Standard factual accuracy")

/-- `GradingEngine._score_analytical_rigor`. -/
def score_analytical_rigor (i : ScorerInputs) : ℚ × String :=
  let score : ℚ := 70
  let score := if i.ar_scenario_count ≥ 3 then score + 15
    else if i.ar_scenario_count ≥ 1 then score + 5 else score - 10
  let fb : List String := if i.ar_scenario_count ≥ 3 then ["Good scenario analysis present"]
    else if i.ar_scenario_count ≥ 1 then ["Some scenario consideration"]
    else ["Limited scenario analysis"]
  let score := if i.ar_assumption_count ≥ 5 then score + 10
    else if i.ar_assumption_count ≥ 2 then score + 5 else score
  let fb := fb ++ (if i.ar_assumption_count ≥ 5 then ["Assumptions are explicit"]
    else if i.ar_assumption_count ≥ 2 then ["Some assumptions stated"] else [])
  let score := if i.ar_structure_count ≥ 3 then score + 5 else score
  let fb := fb ++ (if i.ar_structure_count ≥ 3 then ["Good logical flow"] else [])
  let score := min 100 (max 0 score)
  (score, joinSemi fb "Standard analytical rigor")

/-- `GradingEngine._score_risk_assessment`. -/
def score_risk_assessment (i : ScorerInputs) : ℚ × String :=
  let score : ℚ := 60
  let score := if i.ra_risk_section_found then
      (if i.ra_risk_items ≥ 5 then score + 20
       else if i.ra_risk_items ≥ 3 then score + 10 else score)
    else score - 15
  let fb : List String := if i.ra_risk_section_found then
      (if i.ra_risk_items ≥ 5 then
        ["Comprehensive risk list (" ++ toString i.ra_risk_items ++ "+ risks)"]
       else if i.ra_risk_items ≥ 3 then
        ["Adequate risk coverage (" ++ toString i.ra_risk_items ++ " risks)"]
       else ["Limited risk identification"])
    else ["No clear risk section"]
  let score := if i.ra_has_assessment then score + 15 else score
  let fb := fb ++ (if i.ra_has_assessment then ["Includes probability/impact assessment"] else [])
  let score := if i.ra_has_mitigation then score + 5 else score
  let fb := fb ++ (if i.ra_has_mitigation then ["Discusses risk mitigation"] else [])
  let score := min 100 (max 0 score)
  (score, joinSemi fb "Standard risk assessment")

/-- `GradingEngine._score_evidence_quality`. -/
def score_evidence_quality (i : ScorerInputs) : ℚ × String :=
  let score : ℚ := 70
  let score := if i.eq_source_count ≥ 5 then score + 15
    else if i.eq_source_count ≥ 2 then score + 10 else score - 5
  let fb : List String := if i.eq_source_count ≥ 5 then ["Excellent source citations"]
    else if i.eq_source_count ≥ 2 then ["Good source references"]
    else ["Limited source citations"]
  let score := if i.eq_has_calculations then score + 10 else score
  let fb := fb ++ (if i.eq_has_calculations then ["Includes shown calculations"] else [])
  let score := min 100 (max 0 score)
  (score, joinSemi fb "Standard evidence quality")

/-- The five required-section names of `_score_completeness`, in the order
of the source dictionary. -/
def completenessSections (i : ScorerInputs) : List (String × Bool) :=
  [("thesis", i.co_thesis), ("valuation", i.co_valuation), ("risks", i.co_risks),
   ("catalyst", i.co_catalyst), ("position", i.co_position)]

/-- `GradingEngine._score_completeness`.  The set difference in the
missing-sections feedback string is rendered in the source dictionary's key
order (Python's `set` iteration order is unspecified). -/
def score_completeness (i : ScorerInputs) : ℚ × String :=
  let sections_found : Nat := ((completenessSections i).filter (·.2)).length
  let coverage : ℚ := (sections_found : ℚ) / 5
  let score : ℚ := 60
  let score := if coverage ≥ 9/10 then score + 25
    else if coverage ≥ 7/10 then score + 15
    else if coverage ≥ 5/10 then score + 5 else score - 15
  let fb : List String := if coverage ≥ 9/10 then ["All major sections covered"]
    else if coverage ≥ 7/10 then ["Most sections covered"]
    else if coverage ≥ 5/10 then ["Some sections missing"]
    else ["Missing sections: " ++
      String.intercalate ", " (((completenessSections i).filter (fun x => !x.2)).map (·.1))]
  let score := if i.co_has_bull && i.co_has_bear then score + 10 else score
  let fb := fb ++ (if i.co_has_bull && i.co_has_bear then ["Balanced bull/bear presentation"] else [])
  let score := min 100 (max 0 score)
  (score, joinSemi fb "Standard completeness")

/-- `GradingEngine._score_alpha_environment`. -/
def score_alpha_environment (i : ScorerInputs) : ℚ × String :=
  let score : ℚ := 50
  let score := if i.ae_separation_count ≥ 2 then score + 25
    else if i.ae_separation_count ≥ 1 then score + 15 else score - 10
  let fb : List String := if i.ae_separation_count ≥ 2 then ["Strong alpha/environment separation"]
    else if i.ae_separation_count ≥ 1 then ["Some alpha/environment distinction"]
    else ["No alpha/environment separation"]
  let score := if i.ae_has_quantification then score + 15 else score
  let fb := fb ++ (if i.ae_has_quantification then ["Quantifies driver contributions"] else [])
  let score := if i.ae_has_extrapolation_awareness then score + 10 else score
  let fb := fb ++
    (if i.ae_has_extrapolation_awareness then ["Warns against environmental extrapolation"] else [])
  let score := min 100 (max 0 score)
  (score, joinSemi fb "Standard alpha/environment analysis")

/-- `GradingEngine._score_risk_treatment`. -/
def score_risk_treatment (i : ScorerInputs) : ℚ × String :=
  let score : ℚ := 50
  let score := if i.rt_scenario_count ≥ 3 then score + 20
    else if i.rt_scenario_count ≥ 2 then score + 10 else score
  let fb : List String := if i.rt_scenario_count ≥ 3 then ["Comprehensive scenario analysis"]
    else if i.rt_scenario_count ≥ 2 then ["Includes scenario analysis"] else []
  let score := if i.rt_uncertainty_count ≥ 2 then score + 15
    else if i.rt_uncertainty_count ≥ 1 then score + 5 else score
  let fb := fb ++ (if i.rt_uncertainty_count ≥ 2 then ["Explicit uncertainty acknowledgment"]
    else if i.rt_uncertainty_count ≥ 1 then ["Some uncertainty discussion"] else [])
  let score := if i.rt_has_probability then score + 15 else score
  let fb := fb ++ (if i.rt_has_probability then ["Probability-weighted scenarios"] else [])
  let score := min 100 (max 0 score)
  (score, joinSemi fb "Standard risk treatment")

/-- `GradingEngine._score_terminal_value`. -/
def score_terminal_value (i : ScorerInputs) : ℚ × String :=
  let score : ℚ := 50
  let score := if i.tv_has_terminal then score + 15 else score
  let fb : List String := if i.tv_has_terminal then ["Addresses terminal value"] else []
  let score := if i.tv_has_gdp_anchor then score + 20 else score
  let fb := fb ++ (if i.tv_has_gdp_anchor then ["Terminal growth anchored appropriately"]
    else ["Terminal growth may lack grounding"])
  let score := if i.tv_has_consistency then score + 15 else score
  let fb := fb ++ (if i.tv_has_consistency then ["Internal consistency checked"] else [])
  let score := min 100 (max 0 score)
  (score, joinSemi fb "Standard terminal value analysis")

/-- `GradingEngine._score_cyclical_structural`. -/
def score_cyclical_structural (i : ScorerInputs) : ℚ × String :=
  let score : ℚ := 50
  let score := if i.cy_cyclical_count ≥ 2 then score + 25
    else if i.cy_cyclical_count ≥ 1 then score + 10 else score
  let fb : List String := if i.cy_cyclical_count ≥ 2 then ["Strong cyclical/structural analysis"]
    else if i.cy_cyclical_count ≥ 1 then ["Some cyclical awareness"] else []
  let score := if i.cy_has_normalized then score + 20 else score
  let fb := fb ++ (if i.cy_has_normalized then ["Uses normalized metrics"] else [])
  let score := min 100 (max 0 score)
  (score, joinSemi fb "Standard cyclical analysis")

/-- `GradingEngine._score_risk_classification`. -/
def score_risk_classification (i : ScorerInputs) : ℚ × String :=
  let score : ℚ := 50
  let score := if i.rc_env_idio_count ≥ 2 then score + 25
    else if i.rc_env_idio_count ≥ 1 then score + 15 else score
  let fb : List String := if i.rc_env_idio_count ≥ 2 then ["Strong env/idio classification"]
    else if i.rc_env_idio_count ≥ 1 then ["Some risk classification"] else []
  let score := if i.rc_risk_type_count ≥ 4 then score + 20
    else if i.rc_risk_type_count ≥ 2 then score + 10 else score
  let fb := fb ++ (if i.rc_risk_type_count ≥ 4 then ["Comprehensive risk taxonomy"]
    else if i.rc_risk_type_count ≥ 2 then ["Multiple risks identified"] else [])
  let score := min 100 (max 0 score)
  (score, joinSemi fb "Standard risk classification")

/-- `GradingEngine._score_hedging_logic`. -/
def score_hedging_logic (i : ScorerInputs) : ℚ × String :=
  let score : ℚ := 50
  let score := if i.hl_hedge_logic_count ≥ 2 then score + 25
    else if i.hl_hedge_logic_count ≥ 1 then score + 15 else score
  let fb : List String := if i.hl_hedge_logic_count ≥ 2 then ["Strong hedging logic"]
    else if i.hl_hedge_logic_count ≥ 1 then ["Some hedging rationale"] else []
  let score := if i.hl_has_instruments then score + 15 else score
  let fb := fb ++ (if i.hl_has_instruments then ["Specific hedge instruments"] else [])
  let score := if i.hl_has_residual then score + 10 else score
  let fb := fb ++ (if i.hl_has_residual then ["Acknowledges residual exposure"] else [])
  let score := min 100 (max 0 score)
  (score, joinSemi fb "Standard hedging analysis")

/-- `GradingEngine._score_sizing_methodology`. -/
def score_sizing_methodology (i : ScorerInputs) : ℚ × String :=
  let score : ℚ := 50
  let score := if i.sm_risk_sizing_count ≥ 2 then score + 25
    else if i.sm_risk_sizing_count ≥ 1 then score + 15 else score
  let fb : List String := if i.sm_risk_sizing_count ≥ 2 then ["Strong risk-based sizing"]
    else if i.sm_risk_sizing_count ≥ 1 then ["Some risk-based sizing"]
    else ["May use notional sizing only"]
  let score := if i.sm_has_vol_calc then score + 15 else score
  let fb := fb ++ (if i.sm_has_vol_calc then ["Includes volatility calculations"] else [])
  let score := if i.sm_has_binary then score + 10 else score
  let fb := fb ++ (if i.sm_has_binary then ["Addresses binary event sizing"] else [])
  let score := min 100 (max 0 score)
  (score, joinSemi fb "Standard sizing methodology")

/-- `GradingEngine._score_risk_placement`. -/
def score_risk_placement (i : ScorerInputs) : ℚ × String :=
  let score : ℚ := 50
  let score := if i.rp_exposure_count ≥ 2 then score + 20
    else if i.rp_exposure_count ≥ 1 then score + 10 else score
  let fb : List String := if i.rp_exposure_count ≥ 2 then ["Discusses exposure management"]
    else if i.rp_exposure_count ≥ 1 then ["Some exposure discussion"] else []
  let score := if i.rp_has_risk_budget then score + 15 else score
  let fb := fb ++ (if i.rp_has_risk_budget then ["Risk budgeting present"] else [])
  let score := min 100 (max 0 score)
  (score, joinSemi fb "Standard risk placement")

/-- `GradingEngine._score_uncertainty_judgment`. -/
def score_uncertainty_judgment (i : ScorerInputs) : ℚ × String :=
  let score : ℚ := 50
  let score := if i.uj_uncertainty_count ≥ 3 then score + 20
    else if i.uj_uncertainty_count ≥ 1 then score + 10 else score
  let fb : List String := if i.uj_uncertainty_count ≥ 3 then ["Strong uncertainty acknowledgment"]
    else if i.uj_uncertainty_count ≥ 1 then ["Some uncertainty discussion"] else []
  let score := if i.uj_has_what_if then score + 15 else score
  let fb := fb ++ (if i.uj_has_what_if then ["Includes contingency planning"] else [])
  let score := min 100 (max 0 score)
  (score, joinSemi fb "Standard uncertainty handling")

/-- `GradingEngine._score_attribution_discipline`. -/
def score_attribution_discipline (i : ScorerInputs) : ℚ × String :=
  let score : ℚ := 50
  let score := if i.ad_factor_count ≥ 3 then score + 25
    else if i.ad_factor_count ≥ 1 then score + 15 else score
  let fb : List String := if i.ad_factor_count ≥ 3 then ["Strong factor decomposition"]
    else if i.ad_factor_count ≥ 1 then ["Some factor analysis"]
    else ["Limited factor decomposition"]
  let score := if i.ad_has_residual then score + 20 else score
  let fb := fb ++ (if i.ad_has_residual then ["Calculates residual alpha"] else [])
  let score := if i.ad_has_calc_methodology then score + 10 else score
  let fb := fb ++ (if i.ad_has_calc_methodology then ["Shows calculation methodology"] else [])
  let score := min 100 (max 0 score)
  (score, joinSemi fb "Standard attribution analysis")

/-- `GradingEngine._score_hypothesis_testing`. -/
def score_hypothesis_testing (i : ScorerInputs) : ℚ × String :=
  let score : ℚ := 50
  let score := if i.ht_hypothesis_count ≥ 2 then score + 25
    else if i.ht_hypothesis_count ≥ 1 then score + 15 else score
  let fb : List String := if i.ht_hypothesis_count ≥ 2 then ["Strong hypothesis testing"]
    else if i.ht_hypothesis_count ≥ 1 then ["Some hypothesis testing"]
    else ["Limited hypothesis testing"]
  let score := if i.ht_has_skepticism then score + 15 else score
  let fb := fb ++ (if i.ht_has_skepticism then ["Shows appropriate skepticism"] else [])
  let score := if i.ht_has_evidence then score + 10 else score
  let fb := fb ++ (if i.ht_has_evidence then ["Evidence-based conclusions"] else [])
  let score := min 100 (max 0 score)
  (score, joinSemi fb "Standard hypothesis testing")

/-- `GradingEngine._score_contextual_evaluation`. -/
def score_contextual_evaluation (i : ScorerInputs) : ℚ × String :=
  let score : ℚ := 50
  let score := if i.ce_conditional_count ≥ 2 then score + 20
    else if i.ce_conditional_count ≥ 1 then score + 10 else score
  let fb : List String := if i.ce_conditional_count ≥ 2 then ["Evaluates skill conditionally"]
    else if i.ce_conditional_count ≥ 1 then ["Some conditional evaluation"] else []
  let score := if i.ce_has_intentionality then score + 20 else score
  let fb := fb ++ (if i.ce_has_intentionality then ["Addresses intentionality question"] else [])
  let score := if i.ce_has_neutral_skepticism then score + 10 else score
  let fb := fb ++
    (if i.ce_has_neutral_skepticism then ["Questions neutral environment assumption"] else [])
  let score := min 100 (max 0 score)
  (score, joinSemi fb "Standard contextual evaluation")

/-- `GradingEngine._score_with_llm` (placeholder in the source). -/
def score_with_llm : ℚ × String := (75, "LLM scoring not yet implemented")

/-- `GradingEngine._score_dimension`: the `if/elif` dispatch on
`dimension["id"]`, in source order, with the unknown-id default. -/
def score_dimension (i : ScorerInputs) (dim_id : String) (use_llm : Bool) : ℚ × String :=
  if use_llm then score_with_llm
  else if dim_id = "factual_accuracy" then score_factual_accuracy i
  else if dim_id = "analytical_rigor" then score_analytical_rigor i
  else if dim_id = "risk_assessment" then score_risk_assessment i
  else if dim_id = "evidence_quality" then score_evidence_quality i
  else if dim_id = "completeness" then score_completeness i
  else if dim_id = "alpha_environment" then score_alpha_environment i
  else if dim_id = "risk_treatment" then score_risk_treatment i
  else if dim_id = "terminal_value" then score_terminal_value i
  else if dim_id = "risk_classification" then score_risk_classification i
  else if dim_id = "hedging_logic" then score_hedging_logic i
  else if dim_id = "sizing_methodology" then score_sizing_methodology i
  else if dim_id = "attribution_discipline" then score_attribution_discipline i
  else if dim_id = "hypothesis_testing" then score_hypothesis_testing i
  else if dim_id = "contextual_evaluation" then score_contextual_evaluation i
  else if dim_id = "cyclical_structural" then score_cyclical_structural i
  else if dim_id = "risk_placement" then score_risk_placement i
  else if dim_id = "uncertainty_judgment" then score_uncertainty_judgment i
  else (70, "Default score applied")

/-- The dimension ids recognized by the `_score_dimension` dispatch. -/
def knownDimensionIds : List String :=
  ["factual_accuracy", "analytical_rigor", "risk_assessment", "evidence_quality",
   "completeness", "alpha_environment", "risk_treatment", "terminal_value",
   "risk_classification", "hedging_logic", "sizing_methodology",
   "attribution_discipline", "hypothesis_testing", "contextual_evaluation",
   "cyclical_structural", "risk_placement", "uncertainty_judgment"]

/-! ## Composite reward signal (studio/rewards.py)

Float arithmetic is modelled as exact `ℝ` arithmetic (`compute_format`
takes a square root, so `ℚ` does not suffice); `round(x, 4)` is modelled by
rounding the exact real to the nearest multiple of `1/10^4`. -/

/-- Multi-faceted reward for GRPO-aligned preference scoring
(`RewardSignal` dataclass; field defaults are the source's defaults). -/
structure RewardSignal where
  accuracy : ℝ := 1/2
  logic : ℝ := 1/2
  format_quality : ℝ := 1/2
  length : ℝ := 1/2
  explanations : List (String × String) := []

/-- `RewardSignal.composite` with the source's default weights
0.40/0.30/0.15/0.15: the length term is gated by accuracy. -/
noncomputable def RewardSignal.composite (r : RewardSignal)
    (alpha_acc : ℝ := 40/100) (alpha_logic : ℝ := 30/100)
    (alpha_format : ℝ := 15/100) (alpha_length : ℝ := 15/100) : ℝ :=
  alpha_acc * r.accuracy + alpha_logic * r.logic
    + alpha_format * r.format_quality + alpha_length * (r.length * r.accuracy)

/-- `round(x, 4)` (Python's tie-to-even on floats is modelled as ordinary
rounding of the exact real; no value in the claims sits on a tie). -/
noncomputable def roundTo4 (x : ℝ) : ℝ := (round (x * 10000) : ℤ) / 10000

/-- `_LOGIC_KEYWORDS` (a frozenset; tested against single whitespace-split
tokens, so the multi-word entries can never fire — kept for fidelity). -/
def logicKeywords : List (List Char) :=
  ["therefore".toList, "because".toList, "thus".toList, "assuming".toList,
   "given".toList, "since".toList, "implies".toList, "consequently".toList,
   "however".toList, "although".toList, "whereas".toList, "if".toList,
   "then".toList, "leads to".toList, "results in".toList, "due to".toList]

/-- `compute_accuracy`: token-set overlap with the reference, scaled by 1.2
and capped at 1; neutral 0.5 when the reference is absent or empty. -/
noncomputable def compute_accuracy (text : List Char)
    (reference : Option (List Char) := none) : ℝ :=
  match reference with
  | none => 1/2
  | some ref =>
    if ref.isEmpty then 1/2
    else
      let text_tokens := (splitWs (lowerL text)).dedup
      let ref_tokens := (splitWs (lowerL ref)).dedup
      if ref_tokens.isEmpty then 1/2
      else
        let overlap : ℝ :=
          ((ref_tokens.filter (fun t => text_tokens.contains t)).length : ℝ)
            / (ref_tokens.length : ℝ)
        min (overlap * (12/10)) 1

/-- `[.!?]` of the sentence-splitting regex in `compute_logic`. -/
def isSentSep (c : Char) : Bool := c = '.' || c = '!' || c = '?'

/-- Number of maximal runs of sentence separators. -/
def sepRuns : List Char → Bool → Nat
  | [], _ => 0
  | c :: rest, inRun =>
    if isSentSep c then (if inRun then sepRuns rest true else 1 + sepRuns rest true)
    else sepRuns rest false

/-- `len(re.split(r'[.!?]+', text))` = number of separator runs + 1. -/
def sentSplitCount (s : List Char) : Nat := sepRuns s false + 1

/-- `\s*\d+[.)]\s` (the numbered-step pattern without its `(?:^|\n)` head). -/
def wsDigitBranch : List RTok :=
  [.star isPySpace, .plus Char.isDigit, .cls (fun c => c = '.' || c = ')'), .cls isPySpace]

/-- `\n\s*\d+[.)]\s`. -/
def nlStepBranch : List RTok := RTok.lit ['\n'] :: wsDigitBranch

/-- `len(re.findall(r'(?:^|\n)\s*\d+[.)]\s', text))` — without `re.MULTILINE`
the `^` alternative can only fire at position 0; subsequent non-overlapping
matches all take the `\n` alternative. -/
def numberedStepsCount (text : List Char) : Nat :=
  match tryHere [wsDigitBranch] text with
  | some k => 1 + (findAll [nlStepBranch] (text.drop k)).length
  | none => (findAll [nlStepBranch] text).length

/-- `compute_logic`: logical-connective density per sentence, plus a 0.15
bonus (capped at 1) for at least two numbered reasoning steps. -/
noncomputable def compute_logic (text : List Char) : ℝ :=
  let words := splitWs (lowerL text)
  if words.isEmpty then 0
  else
    let keyword_hits := words.countP (fun w => logicKeywords.contains w)
    let sentences := max (sentSplitCount text) 1
    let density : ℝ := (keyword_hits : ℝ) / (sentences : ℝ)
    let score := min (density / 1) 1
    let numbered_steps := numberedStepsCount text
    if numbered_steps ≥ 2 then min (score + 15/100) 1 else score

/-- The marker alternatives of `_STRUCTURE_MARKERS` (after the `(?:^|\n)`
head): `#{1,4}\s`, `[-*]\s`, `\d+\.\s`, `>\s`, `|`. -/
def markerBranches : List (List RTok) :=
  [ [.cls (· = '#'), .gapC 3 (· = '#'), .cls isPySpace],
    [.cls (fun c => c = '-' || c = '*'), .cls isPySpace],
    [.plus Char.isDigit, litS ".", .cls isPySpace],
    [litS ">", .cls isPySpace],
    [litS "|"] ]

/-- The same alternatives prefixed with a literal newline. -/
def nlMarkerBranches : List (List RTok) :=
  markerBranches.map (fun b => RTok.lit ['\n'] :: b)

/-- `len(_STRUCTURE_MARKERS.findall(text))` with `re.MULTILINE`: at a
line-start position the `^` alternative is tried first, then the `\n`
alternative; elsewhere only the `\n` alternative can match.  `atLS` records
whether the current position is a line start (position 0 or preceded by a
newline in the original string). -/
def structHitsAux : Nat → List Char → Bool → Nat
  | 0, _, _ => 0
  | fuel + 1, s, atLS =>
    match s with
    | [] => 0
    | c :: rest =>
      match ((if atLS then tryHere markerBranches s else none)).orElse
          (fun _ => tryHere nlMarkerBranches s) with
      | some k =>
        1 + structHitsAux fuel (s.drop k) (decide ((s.take k).getLast? = some '\n'))
      | none => structHitsAux fuel rest (decide (c = '\n'))

/-- Number of structure-marker matches in the text. -/
def structHits (text : List Char) : Nat := structHitsAux text.length text true

/-- `compute_format`: 60% structural-marker density + 40% paragraph-length
consistency (1 − coefficient of variation, floored at 0). -/
noncomputable def compute_format (text : List Char) : ℝ :=
  if (pyStrip text).isEmpty then 0
  else
    let structure_hits := structHits text
    let paragraphs := ((splitOnL "\n\n".toList text).map pyStrip).filter
      (fun p => !p.isEmpty)
    let n_paras := max paragraphs.length 1
    let structure_score : ℝ := min ((structure_hits : ℝ) / (max n_paras 3 : ℕ)) 1
    let consistency : ℝ :=
      if paragraphs.length ≥ 2 then
        let lengths := paragraphs.map List.length
        let avg_len : ℝ := ((lengths.map (fun l => (l : ℝ))).sum) / (n_paras : ℝ)
        let variance : ℝ :=
          ((lengths.map (fun l => ((l : ℝ) - avg_len) ^ 2)).sum) / (n_paras : ℝ)
        let cv := Real.sqrt variance / max avg_len 1
        max (1 - cv) 0
      else 1/2
    6/10 * structure_score + 4/10 * consistency

/-- `compute_length`: triangular reward peaking inside `[ideal_min, ideal_max]`
words, with floors 0.1 below and 0.2 above. -/
noncomputable def compute_length (text : List Char)
    (ideal_min : Nat := 150) (ideal_max : Nat := 600) : ℝ :=
  let word_count := (splitWs text).length
  if word_count < ideal_min then max ((word_count : ℝ) / (ideal_min : ℝ)) (1/10)
  else if word_count > ideal_max then max ((ideal_max : ℝ) / (word_count : ℝ)) (2/10)
  else 1

/-- Truthiness of an optional list (`if rubric_scores:` — both `None` and an
empty mapping are falsy). -/
def pyTruthyL {α : Type} : Option (List α) → Bool
  | none => false
  | some l => !l.isEmpty

/-- `compute_reward`: rubric scores (0–100 per axis, divided by 100, default
50 per missing key) override the heuristics when the mapping is truthy;
otherwise the four heuristic scorers run.  The `prompt` parameter exists in
the source's signature but is unused by its body. -/
noncomputable def compute_reward (output_text : List Char) (_prompt : List Char := [])
    (reference : Option (List Char) := none)
    (rubric_scores : Option (List (String × ℝ)) := none) : RewardSignal :=
  if pyTruthyL rubric_scores then
    let rs := rubric_scores.getD []
    { accuracy := (rs.lookup "accuracy").getD 50 / 100
      logic := (rs.lookup "logic").getD 50 / 100
      format_quality := (rs.lookup "format_quality").getD 50 / 100
      length := (rs.lookup "length").getD 50 / 100
      explanations := [("source", "rubric_scores")] }
  else
    { accuracy := compute_accuracy output_text reference
      logic := compute_logic output_text
      format_quality := compute_format output_text
      length := compute_length output_text
      explanations := [("source", "heuristic")] }

/-- JSON-like values of a preference-pair mapping. -/
inductive Val where
  | vStr : String → Val
  | vNum : ℝ → Val
  | vDict : List (String × Val) → Val

/-- Python dict lookup on an insertion-ordered association list. -/
def lookupKey : List (String × Val) → String → Option Val
  | [], _ => none
  | (k, v) :: rest, key => if k = key then some v else lookupKey rest key

/-- Python dict assignment: overwrite in place, or append a new key. -/
def setKey : List (String × Val) → String → Val → List (String × Val)
  | [], key, v => [(key, v)]
  | (k, v') :: rest, key, v =>
    if k = key then (key, v) :: rest else (k, v') :: setKey rest key v

/-- `RewardSignal.to_dict` (each entry rounded to 4 decimal places). -/
noncomputable def RewardSignal.to_dict (r : RewardSignal) : Val :=
  .vDict [("accuracy", .vNum (roundTo4 r.accuracy)),
          ("logic", .vNum (roundTo4 r.logic)),
          ("format_quality", .vNum (roundTo4 r.format_quality)),
          ("length", .vNum (roundTo4 r.length)),
          ("composite", .vNum (roundTo4 r.composite)),
          ("explanations", .vDict (r.explanations.map (fun kv => (kv.1, Val.vStr kv.2))))]

/-- `pair.get("prompt", "")` as handed to `compute_reward`'s `prompt`
parameter.  That parameter is never read by `compute_reward`'s body, so the
value at the `prompt` key — of any type, string or not — cannot affect the
result and never raises; a non-string value is therefore rendered as the
empty string here (see `compute_reward_ignores_prompt`). -/
def promptArg (pair : List (String × Val)) : List Char :=
  match lookupKey pair "prompt" with
  | some (.vStr p) => p.toList
  | _ => []

/-- `annotate_pair_with_rewards`: adds `chosen_score`, `rejected_score` and
`reward_details` to the pair mapping.  `none` models the `KeyError` /
`AttributeError` the source raises when `chosen`/`rejected` are missing or
not strings (their values reach `str.lower`/`str.split`); the `prompt` key,
unused by `compute_reward`, is passed along and preserved whatever it holds. -/
noncomputable def annotate_pair_with_rewards (pair : List (String × Val))
    (reference : Option (List Char) := none) : Option (List (String × Val)) :=
  match lookupKey pair "chosen", lookupKey pair "rejected" with
  | some (.vStr chosen), some (.vStr rejected) =>
    let chosen_reward := compute_reward chosen.toList (promptArg pair) reference none
    let rejected_reward := compute_reward rejected.toList (promptArg pair) reference none
    let pair := setKey pair "chosen_score" (.vNum (roundTo4 chosen_reward.composite))
    let pair := setKey pair "rejected_score" (.vNum (roundTo4 rejected_reward.composite))
    let pair := setKey pair "reward_details"
      (.vDict [("chosen", chosen_reward.to_dict), ("rejected", rejected_reward.to_dict),
               ("reward_type", .vStr "grpo_multifaceted")])
    some pair
  | _, _ => none

/-! ## Concrete example inputs used by witnesses and counterexamples -/

/-- The two-dimension rubric `{a: 0.5, b: 0.5}` (fractional convention). -/
def rubricFractional : Rubric :=
  { dimensions := some [{ id := "a", weight := some (1/2) }, { id := "b", weight := some (1/2) }] }

/-- The two-dimension rubric `{a: 50, b: 50}` (percentage convention). -/
def rubricPercent : Rubric :=
  { dimensions := some [{ id := "a", weight := some 50 }, { id := "b", weight := some 50 }] }

/-- A submission consisting of a risk header with no body. -/
def riskHeaderOnly : List Char := "## Risks".toList

/-- A risk header followed by exactly 50 characters of body text. -/
def riskBody50 : List Char := "## Risks\n".toList ++ List.replicate 50 'a'

/-- A risk header followed by 51 characters of body text. -/
def riskBody51 : List Char := "## Risks\n".toList ++ List.replicate 51 'a'

/-- A calculation-context submission (mentions position sizing). -/
def calcDoc : List Char := "Position sizing at $5M notional exposure".toList

/-- A submission with one dollar figure and no calculation context. -/
def figDoc : List Char := "$123 price target".toList

/-- A preference-pair mapping with an extra key and a non-string `prompt`
value (harmless, since `compute_reward` ignores its prompt parameter). -/
def pairExample : List (String × Val) :=
  [("prompt", .vNum 3), ("chosen", .vStr "good analysis because sound"),
   ("rejected", .vStr "bad"), ("task_id", .vNum 7)]

theorem sanity_lower : lowerL "## Risks".toList = "## risks".toList := by decide

theorem sanity_search :
    searchEnd [[litS "##", .optC (· = ' '), litS "risk", .optC (· = 's')]]
      "## risks and more".toList = some 8 := by decide

theorem sanity_findall :
    findAll [[litS "$", .plus (fun c => c.isDigit || c = ',' || c = '.'),
              .optC (fun c => c = 'B' || c = 'M' || c = 'K')]]
      "rev of $1,2M and $9 now".toList = ["$1,2M".toList, "$9".toList] := by decide

/-! ## Claim C1: critical-failure veto in `determine_pass_fail` -/

/-- C1: for every overall score (including 100.0) and every non-empty
`critical_failures` list, `determine_pass_fail` returns `false`; for an
empty list it returns `true` exactly when the score reaches the rubric's
`pass_threshold`, which defaults to 70. -/
theorem determine_pass_fail_veto (r : Rubric) (overall_score : ℚ)
    (critical_failures : List (List Char)) :
    (critical_failures ≠ [] →
      determine_pass_fail r overall_score critical_failures = false) ∧
    (determine_pass_fail r overall_score [] = true ↔
      overall_score ≥ r.pass_threshold.getD 70) := by
  constructor
  · intro h
    cases critical_failures with
    | nil => exact absurd rfl h
    | cons a l => rfl
  · unfold determine_pass_fail Rubric.passThreshold
    simp

/-- C1 witness: a score of 100 with one critical failure fails; with no
critical failures and the default threshold, 100 passes. -/
theorem determine_pass_fail_veto_witness :
    determine_pass_fail {} 100 ["Contains forward-looking guarantees".toList] = false ∧
    determine_pass_fail {} 100 [] = true := by
  refine ⟨(determine_pass_fail_veto {} 100 _).1 (by simp), ?_⟩
  rw [(determine_pass_fail_veto {} 100 []).2]
  norm_num

/-! ## Claim C2: `calculate_overall_score` is the weighted average over the
dimensions present in both the rubric and the scores map -/

/-- The running totals of the `calculate_overall_score` loop equal the sums
over the rubric dimensions whose id is present in the scores map. -/
theorem calculate_overall_score_foldl (dimension_scores : String → Option ℚ)
    (dims : List Dim) (t tw : ℚ) :
    dims.foldl (fun (acc : ℚ × ℚ) dimension =>
        let weight := dimension.weight.getD 1
        match dimension_scores dimension.id with
        | some s => (acc.1 + s * weight, acc.2 + weight)
        | none => acc) (t, tw)
    = (t + ((dims.filter (fun d => (dimension_scores d.id).isSome)).map
            (fun d => (dimension_scores d.id).getD 0 * d.weight.getD 1)).sum,
       tw + ((dims.filter (fun d => (dimension_scores d.id).isSome)).map
            (fun d => d.weight.getD 1)).sum) := by
  induction dims generalizing t tw with
  | nil => simp
  | cons d ds ih =>
    simp only [List.foldl_cons, List.filter_cons]
    cases h : dimension_scores d.id with
    | none => simp [h, ih]
    | some s =>
      simp only [h, Option.isSome_some, if_true, List.map_cons, List.sum_cons,
        Option.getD_some, ih]
      rw [Prod.mk.injEq]
      exact ⟨by ring, by ring⟩

/-- C2: `calculate_overall_score` equals `Σ(score·weight)/Σ(weight)` over the
rubric dimensions present in the scores map, is 0 when that total weight is
0, and in particular is 0 for a rubric whose `dimensions` list is missing or
empty. -/
theorem calculate_overall_score_spec (r : Rubric) (dimension_scores : String → Option ℚ) :
    (calculate_overall_score r dimension_scores =
      if ((r.dims.filter (fun d => (dimension_scores d.id).isSome)).map
            (fun d => d.weight.getD 1)).sum = 0 then 0
      else ((r.dims.filter (fun d => (dimension_scores d.id).isSome)).map
              (fun d => (dimension_scores d.id).getD 0 * d.weight.getD 1)).sum /
           ((r.dims.filter (fun d => (dimension_scores d.id).isSome)).map
              (fun d => d.weight.getD 1)).sum) ∧
    (r.dimensions = none ∨ r.dimensions = some [] →
      calculate_overall_score r dimension_scores = 0) := by
  constructor
  · simp only [calculate_overall_score]
    rw [calculate_overall_score_foldl dimension_scores r.dims 0 0]
    simp
  · intro h
    have hd : r.dims = [] := by
      cases h with
      | inl h2 => simp [Rubric.dims, h2]
      | inr h2 => simp [Rubric.dims, h2]
    simp [calculate_overall_score, hd]

/-- C2 witness: a rubric with no `dimensions` key scores 0 overall, with no
division error, even when every dimension id would have a score. -/
theorem calculate_overall_score_spec_witness :
    calculate_overall_score {} (fun _ => some 80) = 0 :=
  (calculate_overall_score_spec {} (fun _ => some 80)).2 (Or.inl rfl)

/-! ## Claim C3: weight-convention equivalence -/

/-- C3: for every scores map, the rubrics `{a: 0.5, b: 0.5}` and
`{a: 50, b: 50}` produce exactly the same overall score, both through
`GradingEngine.calculate_overall_score` and through the caller-side
convention branch of `EvalRunner.run_evaluation`. -/
theorem weight_convention_equivalence (scores : String → Option ℚ) :
    calculate_overall_score rubricFractional scores =
      calculate_overall_score rubricPercent scores ∧
    eval_runner_overall_score rubricFractional scores =
      eval_runner_overall_score rubricPercent scores := by
  constructor
  · rcases ha : scores "a" with _ | sa <;> rcases hb : scores "b" with _ | sb <;>
      · simp [calculate_overall_score, rubricFractional, rubricPercent, Rubric.dims,
          ha, hb]
        try norm_num
        try ring
  · rcases ha : scores "a" with _ | sa <;> rcases hb : scores "b" with _ | sb <;>
      · simp [eval_runner_overall_score, rubricFractional, rubricPercent, ha, hb]
        try norm_num
        try ring

/-! ## Claim C8: length-accuracy gating in `RewardSignal.composite` -/

/-- C10: `compute_reward` with an empty `rubric_scores` mapping returns
exactly the same `RewardSignal` as with `rubric_scores` absent — the
rubric-override branch requires a truthy (non-empty) mapping. -/
theorem compute_reward_empty_rubric_scores (output_text _prompt : List Char)
    (reference : Option (List Char)) :
    compute_reward output_text _prompt reference (some []) =
      compute_reward output_text _prompt reference none := rfl

/-! ## Claims C4 and C5: clamp invariant and unknown-dimension fallback -/

/-- The final `score = min(100.0, max(0.0, score))` clamp of every heuristic
scorer keeps the score inside `[0, 100]` whatever the unclamped value. -/
theorem clamp_bounds (q : ℚ) :
    0 ≤ min 100 (max 0 q) ∧ min 100 (max 0 q) ≤ 100 :=
  ⟨le_min (by norm_num) (le_max_left 0 q), min_le_left _ _⟩

/-- Bounds propagate through one `if/elif` level of the dispatch. -/
theorem ite_bounds {c : Prop} [Decidable c] {x y : ℚ × String}
    (hx : 0 ≤ x.1 ∧ x.1 ≤ 100) (hy : 0 ≤ y.1 ∧ y.1 ≤ 100) :
    0 ≤ (if c then x else y).1 ∧ (if c then x else y).1 ≤ 100 := by
  by_cases hc : c
  · simpa [hc] using hx
  · simpa [hc] using hy

/-- The LLM-scoring placeholder score 75.0 is in bounds. -/
theorem score_with_llm_bounds : 0 ≤ (score_with_llm).1 ∧ (score_with_llm).1 ≤ 100 :=
  ⟨by norm_num [score_with_llm], by norm_num [score_with_llm]⟩

/-- The unknown-id default score 70.0 is in bounds. -/
theorem default_score_bounds : 0 ≤ (((70 : ℚ), "Default score applied")).1 ∧
    (((70 : ℚ), "Default score applied")).1 ≤ 100 :=
  ⟨by norm_num, by norm_num⟩

/-- C4: for every combination of match-derived features and every dimension
id (with `use_llm` false), the score returned by `_score_dimension` — hence
by each heuristic scorer and by the unknown-id default — lies in `[0, 100]`. -/
theorem score_dimension_clamped (i : ScorerInputs) (dim_id : String) :
    0 ≤ (score_dimension i dim_id false).1 ∧
      (score_dimension i dim_id false).1 ≤ 100 := by
  unfold score_dimension
  refine ite_bounds score_with_llm_bounds ?_
  refine ite_bounds (clamp_bounds _) ?_
  refine ite_bounds (clamp_bounds _) ?_
  refine ite_bounds (clamp_bounds _) ?_
  refine ite_bounds (clamp_bounds _) ?_
  refine ite_bounds (clamp_bounds _) ?_
  refine ite_bounds (clamp_bounds _) ?_
  refine ite_bounds (clamp_bounds _) ?_
  refine ite_bounds (clamp_bounds _) ?_
  refine ite_bounds (clamp_bounds _) ?_
  refine ite_bounds (clamp_bounds _) ?_
  refine ite_bounds (clamp_bounds _) ?_
  refine ite_bounds (clamp_bounds _) ?_
  refine ite_bounds (clamp_bounds _) ?_
  refine ite_bounds (clamp_bounds _) ?_
  refine ite_bounds (clamp_bounds _) ?_
  refine ite_bounds (clamp_bounds _) ?_
  refine ite_bounds (clamp_bounds _) ?_
  exact default_score_bounds

/-- C5: scoring a dimension whose id is not in the dispatch table (with
`use_llm` false) returns exactly `(70.0, "Default score applied")`. -/
theorem score_dimension_default (i : ScorerInputs) (dim_id : String)
    (h : dim_id ∉ knownDimensionIds) :
    score_dimension i dim_id false = (70, "Default score applied") := by
  have hne : ∀ s : String, s ∈ knownDimensionIds → dim_id ≠ s :=
    fun s hs e => h (by rw [e]; exact hs)
  unfold score_dimension
  rw [if_neg (by decide : ¬(false = true)),
    if_neg (hne "factual_accuracy" (by decide)),
    if_neg (hne "analytical_rigor" (by decide)),
    if_neg (hne "risk_assessment" (by decide)),
    if_neg (hne "evidence_quality" (by decide)),
    if_neg (hne "completeness" (by decide)),
    if_neg (hne "alpha_environment" (by decide)),
    if_neg (hne "risk_treatment" (by decide)),
    if_neg (hne "terminal_value" (by decide)),
    if_neg (hne "risk_classification" (by decide)),
    if_neg (hne "hedging_logic" (by decide)),
    if_neg (hne "sizing_methodology" (by decide)),
    if_neg (hne "attribution_discipline" (by decide)),
    if_neg (hne "hypothesis_testing" (by decide)),
    if_neg (hne "contextual_evaluation" (by decide)),
    if_neg (hne "cyclical_structural" (by decide)),
    if_neg (hne "risk_placement" (by decide)),
    if_neg (hne "uncertainty_judgment" (by decide))]

/-- C5 witness: a concrete unrecognized id gets the default score/feedback. -/
theorem score_dimension_default_witness :
    "nonexistent_dimension" ∉ knownDimensionIds ∧
      score_dimension {} "nonexistent_dimension" false =
        (70, "Default score applied") :=
  ⟨by decide, score_dimension_default {} "nonexistent_dimension" (by decide)⟩

/-! ## Claim C7: hallucination heuristic -/

/-- C7: `_detect_hallucination` returns `false` for every submission with a
calculation-context match, regardless of the scenario; otherwise it flags
exactly when, among the first 10 dollar figures of the submission, strictly
more than 5 have no substring match against any number extracted from the
scenario's `key_facts`. -/
theorem detect_hallucination_spec (ai_output : List Char) (scenario : Scenario) :
    (has_calculation_context ai_output = true →
      detect_hallucination ai_output scenario = false) ∧
    (has_calculation_context ai_output = false →
      (detect_hallucination ai_output scenario = true ↔
        5 < ((findAll figRegex ai_output).take 10).countP
          (fun fig => !((scenarioFactValues scenario).any
            (fun fv => containsSub fig fv))))) := by
  unfold detect_hallucination has_calculation_context scenarioFactValues
  constructor
  · intro h
    simp only [h, if_true]
  · intro h
    simp only [h, Bool.false_eq_true, if_false, decide_eq_true_eq]

/-- C7 witness: a position-sizing document with a derived figure is never
flagged; a document with a single unmatched dollar figure and no calculation
context is flagged iff more than 5 of its first 10 figures are unmatched. -/
theorem detect_hallucination_spec_witness :
    detect_hallucination calcDoc {} = false ∧
    (detect_hallucination figDoc {} = true ↔
      5 < ((findAll figRegex figDoc).take 10).countP
        (fun fig => !((scenarioFactValues {}).any (fun fv => containsSub fig fv)))) :=
  ⟨(detect_hallucination_spec calcDoc {}).1 (by decide),
   (detect_hallucination_spec figDoc {}).2 (by decide)⟩

theorem sanity_greedy_gap :
    searchEnd [[litS "what", .gap 20, litS "wrong"]]
      "what went wrong wrong here".toList = some 21 := by decide

theorem sanity_optional_space :
    searchEnd [[litS "##", .optC (· = ' '), litS "risk", .optC (· = 's')]]
      "##risks only".toList = some 7 := by decide

theorem sanity_numbered_steps :
    numberedStepsCount "1. first\n2. second\nthen 3. inline\n 4) deep".toList = 3 := by
  decide

theorem sanity_struct_hits :
    structHits "##\n# b\n- item\n|cell|\n1. x".toList = 5 := by decide

theorem sanity_sentences : sentSplitCount "a.b!c...d".toList = 4 := by decide

theorem sanity_fact_findall :
    findAll factRegex "In 2024 rev $5.2B grew 12.5% and 3.4%".toList =
      ["2024".toList, "$5.2B".toList, "12.5%".toList, "3.4%".toList] := by decide

/-! ## Claim C6: risk-section detection -/

/-- C6 counterexample to the claim as stated: in `riskBody50` the header
pattern `## ?risks?` matches with end position 8 and the stripped
200-character window after the match contains exactly 50 characters — "at
least 50" — yet `_has_risk_section` is `false`, because the source requires
strictly more than 50 (`len(after_header.strip()) > 50`). -/
theorem risk_section_at_least_50_counterexample :
    riskPatterns.head? = some riskHeaderPat ∧
    searchEnd [riskHeaderPat] (lowerL riskBody50) = some 8 ∧
    50 ≤ (pyStrip ((riskBody50.drop 8).take 200)).length ∧
    has_risk_section riskBody50 = false :=
  ⟨rfl, by decide, by decide, by decide⟩

/-- C6 (amended): the risk-section check holds exactly when some header
pattern matches and the 200 characters after the match contain strictly
more than 50 characters after stripping; the bare header `"## Risks"` fails
the check, a header followed by 51 characters of body passes it, and a
submission failing the check contributes exactly the failure string
`"Missing or inadequate risk assessment section"`. -/
theorem has_risk_section_spec (ai_output : List Char) (scenario : Scenario) :
    (has_risk_section ai_output = true ↔
      ∃ p ∈ riskPatterns, ∃ e, searchEnd [p] (lowerL ai_output) = some e ∧
        50 < (pyStrip ((ai_output.drop e).take 200)).length) ∧
    has_risk_section riskHeaderOnly = false ∧
    has_risk_section riskBody51 = true ∧
    ("Missing or inadequate risk assessment section".toList ∈
        check_critical_failures ai_output scenario ↔
      has_risk_section ai_output = false) := by
  refine ⟨?_, by decide, by decide, ?_⟩
  · unfold has_risk_section
    rw [List.any_eq_true]
    constructor
    · rintro ⟨p, hp, hmatch⟩
      refine ⟨p, hp, ?_⟩
      cases hse : searchEnd [p] (lowerL ai_output) with
      | none => rw [hse] at hmatch; exact absurd hmatch (by simp)
      | some e =>
        rw [hse] at hmatch
        simp only [decide_eq_true_eq] at hmatch
        exact ⟨e, rfl, hmatch⟩
    · rintro ⟨p, hp, e, hse, hlen⟩
      refine ⟨p, hp, ?_⟩
      rw [hse]
      simpa using hlen
  · have h1 : "Missing or inadequate risk assessment section".toList ≠
        "Potential hallucinated data detected".toList := by decide
    have h2 : "Missing or inadequate risk assessment section".toList ≠
        "Contains forward-looking guarantees".toList := by decide
    have hS : ∀ c : List Char, "Missing or inadequate risk assessment section".toList ≠
        "Scenario critical failure: ".toList ++ c := by
      intro c h
      have hhd := congrArg List.head? h
      rw [show ("Missing or inadequate risk assessment section".toList).head? = some 'M'
          from rfl,
        show (("Scenario critical failure: ".toList) ++ c).head? = some 'S' from rfl] at hhd
      exact absurd hhd (by decide)
    have hS' : ∀ c : List Char,
        "Scenario critical failure: ".toList ++ c ≠
          "Missing or inadequate risk assessment section".toList :=
      fun c => (hS c).symm
    unfold check_critical_failures
    cases hH : detect_hallucination ai_output scenario <;>
      cases hR : has_risk_section ai_output <;>
        cases hG : has_guarantee_language ai_output <;>
          simp [List.mem_append, List.mem_map, h1, h2, hS, hS']

/-! ## Claim C9: `annotate_pair_with_rewards` preserves all other keys -/

/-- Dict assignment leaves every other key's value unchanged. -/
theorem lookupKey_setKey_ne (m : List (String × Val)) (key k : String) (v : Val)
    (h : k ≠ key) : lookupKey (setKey m key v) k = lookupKey m k := by
  induction m with
  | nil => simp [setKey, lookupKey, Ne.symm h]
  | cons kv rest ih =>
    obtain ⟨k0, v0⟩ := kv
    by_cases h0 : k0 = key
    · subst h0
      simp [setKey, lookupKey, Ne.symm h]
    · simp only [setKey, h0, if_false, lookupKey]
      by_cases h1 : k0 = k
      · simp [h1]
      · simp [h1, ih]

/-- Dict assignment sets the assigned key. -/
theorem lookupKey_setKey_self (m : List (String × Val)) (key : String) (v : Val) :
    lookupKey (setKey m key v) key = some v := by
  induction m with
  | nil => simp [setKey, lookupKey]
  | cons kv rest ih =>
    obtain ⟨k0, v0⟩ := kv
    by_cases h0 : k0 = key
    · simp [setKey, h0, lookupKey]
    · simp [setKey, h0, lookupKey, ih]

/-- The `prompt` argument of `compute_reward` is ignored by its body, so the
result does not depend on it — a non-string `prompt` value in a pair mapping
can never make annotation fail. -/
theorem compute_reward_ignores_prompt (output_text p1 p2 : List Char)
    (reference : Option (List Char)) (rubric_scores : Option (List (String × ℝ))) :
    compute_reward output_text p1 reference rubric_scores =
      compute_reward output_text p2 reference rubric_scores := rfl

/-- C9: on a pair mapping whose `chosen` and `rejected` keys hold strings,
`annotate_pair_with_rewards` succeeds, preserves every key other than
`chosen_score`, `rejected_score` and `reward_details` with its original
value (the `prompt` key in particular, whatever type of value it holds),
and sets those three keys to the rounded composite rewards and the
per-axis breakdown. -/
theorem annotate_pair_preserves_keys (pair : List (String × Val))
    (chosen rejected : String)
    (hc : lookupKey pair "chosen" = some (.vStr chosen))
    (hr : lookupKey pair "rejected" = some (.vStr rejected)) :
    ∃ pair', annotate_pair_with_rewards pair none = some pair' ∧
      (∀ k, k ≠ "chosen_score" → k ≠ "rejected_score" → k ≠ "reward_details" →
        lookupKey pair' k = lookupKey pair k) ∧
      lookupKey pair' "chosen_score" = some (.vNum (roundTo4
        (compute_reward chosen.toList (promptArg pair) none none).composite)) ∧
      lookupKey pair' "rejected_score" = some (.vNum (roundTo4
        (compute_reward rejected.toList (promptArg pair) none none).composite)) ∧
      lookupKey pair' "reward_details" = some (.vDict
        [("chosen", (compute_reward chosen.toList (promptArg pair) none none).to_dict),
         ("rejected", (compute_reward rejected.toList (promptArg pair) none none).to_dict),
         ("reward_type", .vStr "grpo_multifaceted")]) := by
  unfold annotate_pair_with_rewards
  rw [hc, hr]
  refine ⟨_, rfl, ?_, ?_, ?_, ?_⟩
  · intro k h1 h2 h3
    rw [lookupKey_setKey_ne _ _ _ _ h3, lookupKey_setKey_ne _ _ _ _ h2,
      lookupKey_setKey_ne _ _ _ _ h1]
  · rw [lookupKey_setKey_ne _ _ _ _ (by decide), lookupKey_setKey_ne _ _ _ _ (by decide),
      lookupKey_setKey_self]
  · rw [lookupKey_setKey_ne _ _ _ _ (by decide), lookupKey_setKey_self]
  · rw [lookupKey_setKey_self]

/-- C9 witness: annotating a concrete pair whose `prompt` key holds a
number succeeds and keeps both the non-string `prompt` value and the extra
`task_id` key unchanged. -/
theorem annotate_pair_preserves_keys_witness :
    ∃ pair', annotate_pair_with_rewards pairExample none = some pair' ∧
      lookupKey pair' "prompt" = some (.vNum 3) ∧
      lookupKey pair' "task_id" = some (.vNum 7) := by
  obtain ⟨pair', h1, h2, -, -, -⟩ :=
    annotate_pair_preserves_keys pairExample "good analysis because sound" "bad" rfl rfl
  refine ⟨pair', h1, ?_, ?_⟩
  · rw [h2 "prompt" (by decide) (by decide) (by decide)]
    rfl
  · rw [h2 "task_id" (by decide) (by decide) (by decide)]
    rfl
